import Mathlib

/-!
# Verification of the messenger-bot webhook dispatcher (`app.py`)

A shallow embedding of the message classification and reply-dispatch
pipeline of `src/app.py`.  Python strings are Lean `String`s; the Python
string operations used by the code (`lower`, `strip`, the `in` substring
operator) are modelled over the underlying character lists.  The external
world (Google Sheets, the Graph API profile lookup, the Send API) is
modelled by an `Env` record describing what each network call would
return; an uncaught Python exception is an `Except.error`.
-/

set_option autoImplicit false

namespace MessengerBot

/-! ## Python string primitives -/

/-- Python's `str.lower()` (ASCII range, which covers every keyword the
program compares). -/
def pyLower (s : String) : String := ⟨s.data.map Char.toLower⟩

/-- Characters stripped by Python's `str.strip()`. -/
def isWs (c : Char) : Bool := c.isWhitespace

/-- Python's `str.strip()`: drop whitespace from both ends. -/
def pyStrip (s : String) : String :=
  ⟨(((s.data.dropWhile isWs).reverse.dropWhile isWs).reverse)⟩

/-- `strStarts nee hay` : the character list `hay` starts with `nee`. -/
def strStarts : List Char → List Char → Bool
  | [], _ => true
  | _ :: _, [] => false
  | a :: as, b :: bs => a == b && strStarts as bs

/-- `listHas nee hay` : `nee` occurs as a contiguous sublist of `hay`. -/
def listHas : List Char → List Char → Bool
  | nee, [] => strStarts nee []
  | nee, c :: cs => strStarts nee (c :: cs) || listHas nee cs

/-- Python's `needle in haystack` substring test. -/
def strContains (hay nee : String) : Bool := listHas nee.data hay.data

/-! ## Static configuration (lines 18-56 of `app.py`) -/

def FALLBACK_MESSAGE : String :=
  "Sorry, I didn't quite understand that. 😅 Please choose from the options below or contact us directly!"

def GREETING_KEYWORDS : List String := ["hi", "hello", "hey", "start", "help", "menu"]

/-- A quick-reply button: display title and opaque payload code. -/
structure Button where
  title : String
  payload : String
deriving DecidableEq, Repr

def QUICK_REPLY_BUTTONS : List Button :=
  [⟨"💰 Pricing", "PRICE"⟩,
   ⟨"🕐 Our Hours", "HOURS"⟩,
   ⟨"📍 Location", "LOCATION"⟩,
   ⟨"📞 Contact Us", "CONTACT"⟩]

def PAYLOAD_REPLIES : List (String × String) :=
  [("PRICE", "💰 Our pricing starts at $99/month. Visit our website at yourwebsite.com for full details!"),
   ("HOURS", "🕐 We're open Monday to Friday, 9:00 AM – 6:00 PM."),
   ("LOCATION", "📍 You can find us at 123 Main Street, Manila. We'd love to see you!"),
   ("CONTACT", "📞 You can reach us at hello@yourbusiness.com or call +63 900 000 0000.")]

/-! ## The external world -/

/-- One observation of what the external services would answer during a
request.  `sheet` is the outcome of `sheet.get_all_values()` (raw rows,
header included) or a raised exception; `nameFault`/`nameStatus`/
`nameFirstName` describe the Graph API profile `GET`; `sendFault` says
whether `requests.post` to the Send API raises, `sendStatus` is its
status code otherwise. -/
structure Env where
  sheet : Except Unit (List (List String))
  nameFault : Bool
  nameStatus : Nat
  nameFirstName : Option String
  sendFault : Bool
  sendStatus : Nat

/-! ## Google Sheets keyword lookup (lines 63-106) -/

/-- `get_sheet_data` (lines 63-83): fetch all rows, skip the header row.
A network/auth failure is the raised exception of `Env.sheet`. -/
def get_sheet_data (env : Env) : Except Unit (List (List String)) :=
  match env.sheet with
  | Except.error e => Except.error e
  | Except.ok rows => Except.ok (rows.drop 1)

/-- The scanning loop of `find_reply_from_sheet` (lines 95-101): skip rows
with fewer than two cells, skip rows whose stripped keyword is empty,
return the stripped reply of the first row whose stripped lower-cased
keyword occurs in the lower-cased user message. -/
def findLoop (user_message_lower : String) : List (List String) → Option String
  | [] => none
  | row :: rest =>
    match row with
    | k :: r :: _ =>
      let keyword := pyLower (pyStrip k)
      let reply := pyStrip r
      if (keyword != "") && strContains user_message_lower keyword then some reply
      else findLoop user_message_lower rest
    | _ => findLoop user_message_lower rest

/-- `find_reply_from_sheet` (lines 86-106): any exception from the sheet
fetch is caught and turned into `None` (no match). -/
def find_reply_from_sheet (env : Env) (user_message : String) : Option String :=
  match get_sheet_data env with
  | Except.error _ => none
  | Except.ok rows => findLoop (pyLower user_message) rows

/-! ## Graph API profile lookup (lines 113-131) -/

/-- `get_user_name` (lines 113-131): on a 200 response return
`json.get("first_name", "there")`; any exception or non-200 status falls
back to `"there"`. -/
def get_user_name (env : Env) (sender_id : String) : String :=
  if env.nameFault then "there"
  else if env.nameStatus == 200 then
    match env.nameFirstName with
    | some n => n
    | none => "there"
  else "there"

/-! ## Messenger Send API (lines 138-186) -/

/-- The JSON body `send_message` posts to the Send API, as far as the
pipeline's observable behaviour goes: recipient, text, and the optional
quick-reply list. -/
structure SendPayload where
  recipient_id : String
  message_text : String
  quick_replies : Option (List Button)
deriving DecidableEq, Repr

/-- Python truthiness of `if quick_replies:` in `send_message`
(line 152): the `quick_replies` key is attached only when the argument is
a non-empty list. -/
def truthyQR : Option (List Button) → Option (List Button)
  | some (b :: bs) => some (b :: bs)
  | _ => none

/-- `send_message` (lines 138-173).  The first component records the
outgoing `requests.post` call; the second is normal return or the
uncaught exception of a network fault (there is no `try` in
`send_message`, so a fault propagates; a non-200 response is merely
logged and the function returns normally). -/
def send_message (env : Env) (recipient_id message_text : String)
    (quick_replies : Option (List Button)) : List SendPayload × Except Unit Unit :=
  ([⟨recipient_id, message_text, truthyQR quick_replies⟩],
   if env.sendFault then Except.error () else Except.ok ())

/-- The f-string of `send_welcome` (line 184). -/
def welcome_text (name : String) : String :=
  "👋 Hi, " ++ name ++ "! How can we help you today? Choose an option below or type your question:"

/-- `send_welcome` (lines 176-186): resolve the display name, then send
the personalized welcome with the standard buttons. -/
def send_welcome (env : Env) (recipient_id : String) : List SendPayload × Except Unit Unit :=
  let name := get_user_name env recipient_id
  send_message env recipient_id (welcome_text name) (some QUICK_REPLY_BUTTONS)

/-! ## Inbound payloads (webhook POST body) -/

/-- The `message` object of a messaging sub-event: `is_echo` flag,
optional `quick_reply.payload`, optional `text`. -/
structure Msg where
  is_echo : Bool
  quick_reply : Option String
  text : Option String
deriving DecidableEq, Repr

/-- One `entry[].messaging[]` sub-event.  `sender = none` models a
missing `sender`/`sender.id` key (accessing it raises `KeyError`). -/
structure MessagingEvent where
  sender : Option String
  message : Option Msg
deriving DecidableEq, Repr

/-- One element of the `entry` array. -/
structure Entry where
  messaging : List MessagingEvent
deriving DecidableEq, Repr

/-- The POSTed delivery payload: `object` discriminator (`none` models a
missing key) and the `entry` array. -/
structure Payload where
  object : Option String
  entry : List Entry
deriving DecidableEq, Repr

/-- An uncaught Python exception escaping `handle_message`. -/
inductive PyErr where
  | keyError
  | connError
deriving DecidableEq, Repr

/-- Lift the exception of an outbound send into the handler's error
type. -/
def liftSendErr : Except Unit Unit → Except PyErr Unit
  | Except.ok () => Except.ok ()
  | Except.error () => Except.error PyErr.connError

/-- The HTTP response `handle_message` returns when no exception
escapes. -/
inductive HttpResult where
  | notPage
  | okAck
deriving DecidableEq, Repr

/-- The status code of each response: `("Not a page event", 404)` and
`(jsonify(\x7b"status": "ok"\x7d), 200)`. -/
def HttpResult.status : HttpResult → Nat
  | notPage => 404
  | okAck => 200

/-! ## The dispatcher (lines 211-272) -/

/-- The body of the inner `for event in entry.get("messaging", [])` loop
of `handle_message` (lines 231-270): sender extraction (raises on a
missing key), echo skip, quick-reply branch, greeting branch, sheet
lookup, fallback.  Returns the outgoing Send API calls made for this
event and normal completion or the first uncaught exception. -/
def process_event (env : Env) (event : MessagingEvent) :
    List SendPayload × Except PyErr Unit :=
  match event.sender with
  | none => ([], Except.error PyErr.keyError)
  | some sender_id =>
    match event.message with
    | none => ([], Except.ok ())
    | some msg =>
      if msg.is_echo then ([], Except.ok ())
      else
        match msg.quick_reply with
        | some button_payload =>
          let reply := (PAYLOAD_REPLIES.lookup button_payload).getD FALLBACK_MESSAGE
          let (s, r) := send_message env sender_id reply (some QUICK_REPLY_BUTTONS)
          (s, liftSendErr r)
        | none =>
          match msg.text with
          | none => ([], Except.ok ())
          | some user_text =>
            if user_text = "" then ([], Except.ok ())
            else
              let user_text_lower := pyStrip (pyLower user_text)
              if GREETING_KEYWORDS.any (fun keyword => strContains user_text_lower keyword) then
                let (s, r) := send_welcome env sender_id
                (s, liftSendErr r)
              else
                match find_reply_from_sheet env user_text with
                | some sheet_reply =>
                  if sheet_reply ≠ "" then
                    let (s, r) := send_message env sender_id sheet_reply (some QUICK_REPLY_BUTTONS)
                    (s, liftSendErr r)
                  else
                    let (s, r) := send_message env sender_id FALLBACK_MESSAGE (some QUICK_REPLY_BUTTONS)
                    (s, liftSendErr r)
                | none =>
                  let (s, r) := send_message env sender_id FALLBACK_MESSAGE (some QUICK_REPLY_BUTTONS)
                  (s, liftSendErr r)

/-- The inner loop over one entry's `messaging` list; an exception aborts
the remaining events. -/
def run_events (env : Env) : List MessagingEvent → List SendPayload × Except PyErr Unit
  | [] => ([], Except.ok ())
  | e :: rest =>
    let (s, r) := process_event env e
    match r with
    | Except.error err => (s, Except.error err)
    | Except.ok () =>
      let (s2, r2) := run_events env rest
      (s ++ s2, r2)

/-- The outer loop over the `entry` array. -/
def run_entries (env : Env) : List Entry → List SendPayload × Except PyErr Unit
  | [] => ([], Except.ok ())
  | e :: rest =>
    let (s, r) := run_events env e.messaging
    match r with
    | Except.error err => (s, Except.error err)
    | Except.ok () =>
      let (s2, r2) := run_entries env rest
      (s ++ s2, r2)

/-- `handle_message` (lines 211-272): a payload whose `object` is not
`"page"` is answered `("Not a page event", 404)`; otherwise every
sub-event is processed in order and on normal completion the handler
returns the 200 acknowledgment.  An exception escaping the loop escapes
the handler (Flask then serves a 500). -/
def handle_message (env : Env) (data : Payload) :
    List SendPayload × Except PyErr HttpResult :=
  if data.object ≠ some "page" then ([], Except.ok HttpResult.notPage)
  else
    let (s, r) := run_entries env data.entry
    match r with
    | Except.ok () => (s, Except.ok HttpResult.okAck)
    | Except.error err => (s, Except.error err)

/-! ## Claim-side vocabulary

`rowMatches` and `rowReply` restate, row by row, which sheet rows the
scanning loop accepts and what it returns for them; the spec's
"first matching row wins" is then `List.find?`. -/

/-- A sheet row matches the (lower-cased) user message: it has at least
two cells and its stripped, lower-cased keyword is non-empty and occurs
in the message. -/
def rowMatches (user_message_lower : String) (row : List String) : Bool :=
  match row with
  | k :: _ :: _ =>
    (pyLower (pyStrip k) != "") && strContains user_message_lower (pyLower (pyStrip k))
  | _ => false

/-- The reply a matching row yields: its second cell, stripped. -/
def rowReply (row : List String) : String :=
  match row with
  | _ :: r :: _ => pyStrip r
  | _ => ""

/-- The list-level body of `pyStrip`. -/
def stripL (l : List Char) : List Char :=
  ((l.dropWhile isWs).reverse.dropWhile isWs).reverse

theorem pyStrip_data (s : String) : (pyStrip s).data = stripL s.data := rfl

/-! ## Lemmas about the string primitives -/

theorem strStarts_iff (nee hay : List Char) :
    strStarts nee hay = true ↔ ∃ rest, hay = nee ++ rest := by
  induction nee generalizing hay with
  | nil => simp [strStarts]
  | cons a as ih =>
    cases hay with
    | nil => simp [strStarts]
    | cons b bs =>
      rw [strStarts, Bool.and_eq_true, beq_iff_eq, ih bs]
      constructor
      · rintro ⟨rfl, rest, rfl⟩; exact ⟨rest, rfl⟩
      · rintro ⟨rest, heq⟩
        rw [List.cons_append] at heq
        injection heq with h1 h2
        exact ⟨h1.symm, rest, h2⟩

theorem listHas_iff (nee hay : List Char) :
    listHas nee hay = true ↔ ∃ pre post, hay = pre ++ nee ++ post := by
  induction hay with
  | nil =>
    rw [listHas, strStarts_iff]
    constructor
    · rintro ⟨rest, h⟩; exact ⟨[], rest, by simpa using h⟩
    · rintro ⟨pre, post, h⟩
      rcases List.append_eq_nil.mp (List.append_eq_nil.mp h.symm).1 with ⟨h1, h2⟩
      exact ⟨post, by simp [h2, (List.append_eq_nil.mp h.symm).2]⟩
  | cons c cs ih =>
    rw [listHas, Bool.or_eq_true, strStarts_iff, ih]
    constructor
    · rintro (⟨rest, hr⟩ | ⟨pre, post, hp⟩)
      · exact ⟨[], rest, by simp [hr]⟩
      · exact ⟨c :: pre, post, by simp [hp]⟩
    · rintro ⟨pre, post, h⟩
      cases pre with
      | nil => exact Or.inl ⟨post, by simpa using h⟩
      | cons p ps =>
        right
        rw [List.cons_append, List.cons_append] at h
        injection h with h1 h2
        exact ⟨ps, post, h2⟩

theorem listHas_of_infix (nee pre mid post : List Char)
    (h : listHas nee mid = true) :
    listHas nee (pre ++ mid ++ post) = true := by
  rw [listHas_iff] at h ⊢
  obtain ⟨p, q, rfl⟩ := h
  exact ⟨pre ++ p, q ++ post, by simp⟩

theorem dropWhile_keep (c : Char) (hc : isWs c = false) (pre rest : List Char) :
    ∃ pre2, List.dropWhile isWs (pre ++ c :: rest) = pre2 ++ c :: rest := by
  induction pre with
  | nil => exact ⟨[], by simp [List.dropWhile_cons, hc]⟩
  | cons a as ih =>
    by_cases ha : isWs a = true
    · obtain ⟨p2, hp2⟩ := ih
      exact ⟨p2, by simp [List.cons_append, List.dropWhile_cons, ha, hp2]⟩
    · exact ⟨a :: as, by simp [List.cons_append, List.dropWhile_cons, ha]⟩

theorem dropWhile_of_infix (nee : List Char) (hne : nee ≠ [])
    (hws : ∀ c ∈ nee, isWs c = false) (pre post : List Char) :
    ∃ pre2, List.dropWhile isWs (pre ++ nee ++ post) = pre2 ++ nee ++ post := by
  cases nee with
  | nil => exact absurd rfl hne
  | cons c cs =>
    obtain ⟨pre2, hp⟩ := dropWhile_keep c (hws c (List.mem_cons_self c cs)) pre (cs ++ post)
    refine ⟨pre2, ?_⟩
    have : pre ++ (c :: cs) ++ post = pre ++ c :: (cs ++ post) := by simp
    rw [this, hp]
    simp

/-- An occurrence of a non-empty, whitespace-free pattern survives
`strip`: this is why a greeting keyword found in the raw lower-cased text
is still found after the dispatcher's `.strip()`. -/
theorem listHas_stripL (nee hay : List Char) (hne : nee ≠ [])
    (hws : ∀ c ∈ nee, isWs c = false) (h : listHas nee hay = true) :
    listHas nee (stripL hay) = true := by
  obtain ⟨pre, post, rfl⟩ := (listHas_iff nee hay).mp h
  obtain ⟨pre2, h1⟩ := dropWhile_of_infix nee hne hws pre post
  have hne2 : nee.reverse ≠ [] := by
    intro hcon; exact hne (by simpa using congrArg List.reverse hcon)
  have hws2 : ∀ c ∈ nee.reverse, isWs c = false :=
    fun c hc => hws c (List.mem_reverse.mp hc)
  obtain ⟨pre3, h2⟩ := dropWhile_of_infix nee.reverse hne2 hws2 post.reverse pre2.reverse
  rw [listHas_iff]
  refine ⟨pre2, pre3.reverse, ?_⟩
  unfold stripL
  rw [h1]
  have hrev : (pre2 ++ nee ++ post).reverse = post.reverse ++ nee.reverse ++ pre2.reverse := by
    simp
  rw [hrev, h2]
  simp

/-- `strip` only removes characters, so anything found in the stripped
text was present in the original. -/
theorem listHas_of_stripL (nee hay : List Char)
    (h : listHas nee (stripL hay) = true) :
    listHas nee hay = true := by
  obtain ⟨p, q, hdecomp⟩ := (listHas_iff nee (stripL hay)).mp h
  have h1 : hay = hay.takeWhile isWs ++ hay.dropWhile isWs :=
    (List.takeWhile_append_dropWhile isWs hay).symm
  have h2 : (hay.dropWhile isWs).reverse
      = (hay.dropWhile isWs).reverse.takeWhile isWs
        ++ (hay.dropWhile isWs).reverse.dropWhile isWs :=
    (List.takeWhile_append_dropWhile isWs (hay.dropWhile isWs).reverse).symm
  have h3 : hay.dropWhile isWs
      = stripL hay ++ ((hay.dropWhile isWs).reverse.takeWhile isWs).reverse := by
    have h4 := congrArg List.reverse h2
    simp only [List.reverse_reverse, List.reverse_append] at h4
    exact h4
  rw [listHas_iff]
  refine ⟨hay.takeWhile isWs ++ p,
    q ++ ((hay.dropWhile isWs).reverse.takeWhile isWs).reverse, ?_⟩
  conv_lhs => rw [h1]
  conv_lhs => rw [h3]
  conv_lhs => rw [hdecomp]
  simp

/-- The scanning loop is `find?` over `rowMatches`, returning the
matching row's stripped reply. -/
theorem findLoop_eq_find (uml : String) (rows : List (List String)) :
    findLoop uml rows = (rows.find? (rowMatches uml)).map rowReply := by
  induction rows with
  | nil => rfl
  | cons row rest ih =>
    match row with
    | [] => simpa [findLoop, List.find?_cons, rowMatches] using ih
    | [k] => simpa [findLoop, List.find?_cons, rowMatches] using ih
    | k :: r :: r2 =>
      by_cases hm : ((pyLower (pyStrip k) != "") && strContains uml (pyLower (pyStrip k))) = true
      · simp [findLoop, List.find?_cons, rowMatches, hm, rowReply]
      · simp only [Bool.not_eq_true] at hm
        simp [findLoop, List.find?_cons, rowMatches, hm, ih]

theorem truthyQR_buttons : truthyQR (some QUICK_REPLY_BUTTONS) = some QUICK_REPLY_BUTTONS := rfl

/-- Every greeting keyword is a non-empty, whitespace-free string. -/
theorem greeting_keywords_wellformed :
    ∀ kw ∈ GREETING_KEYWORDS, kw.data ≠ [] ∧ ∀ c ∈ kw.data, isWs c = false := by decide

/-- A string that contains a non-empty pattern is itself non-empty. -/
theorem text_ne_empty_of_contains (t kw : String) (hne : kw.data ≠ [])
    (hsub : strContains (pyLower t) kw = true) : t ≠ "" := by
  intro h
  subst h
  obtain ⟨pre, post, hp⟩ := (listHas_iff kw.data (pyLower "").data).mp hsub
  have hp2 : pre ++ kw.data ++ post = ([] : List Char) := hp.symm
  exact hne (List.append_eq_nil.mp (List.append_eq_nil.mp hp2).1).2

/-- If a greeting keyword occurs in the lower-cased text, the
dispatcher's greeting test (which first strips the text) fires. -/
theorem greeting_cond_true (t kw : String) (hkw : kw ∈ GREETING_KEYWORDS)
    (hsub : strContains (pyLower t) kw = true) :
    (GREETING_KEYWORDS.any fun keyword => strContains (pyStrip (pyLower t)) keyword) = true := by
  obtain ⟨hne, hws⟩ := greeting_keywords_wellformed kw hkw
  refine List.any_eq_true.mpr ⟨kw, hkw, ?_⟩
  exact listHas_stripL kw.data (pyLower t).data hne hws hsub

/-- If no greeting keyword occurs in the lower-cased text, the
dispatcher's greeting test does not fire. -/
theorem greeting_cond_false (t : String)
    (hgreet : ∀ kw ∈ GREETING_KEYWORDS, strContains (pyLower t) kw = false) :
    (GREETING_KEYWORDS.any fun keyword => strContains (pyStrip (pyLower t)) keyword) = false := by
  rw [← Bool.not_eq_true, List.any_eq_true]
  rintro ⟨kw, hkw, hc⟩
  have h2 : strContains (pyLower t) kw = true :=
    listHas_of_stripL kw.data (pyLower t).data hc
  rw [hgreet kw hkw] at h2
  exact Bool.false_ne_true h2

/-- When no row of the sheet matches, or the sheet fetch raises, the
lookup reports no match. -/
theorem find_reply_none (env : Env) (t : String)
    (hsheet : ∀ raw, env.sheet = Except.ok raw →
        ∀ row ∈ raw.drop 1, rowMatches (pyLower t) row = false) :
    find_reply_from_sheet env t = none := by
  cases hs : env.sheet with
  | error e => simp [find_reply_from_sheet, get_sheet_data, hs]
  | ok raw =>
    have hmem : ∀ row ∈ raw.tail, rowMatches (pyLower t) row = false := by
      intro row hrow
      exact hsheet raw hs row (by rw [List.drop_one]; exact hrow)
    have hnone : raw.tail.find? (rowMatches (pyLower t)) = none :=
      List.find?_eq_none.mpr (fun row hrow => by simp [hmem row hrow])
    simp [find_reply_from_sheet, get_sheet_data, hs, findLoop_eq_find, hnone]

/-! ## The claims -/

/-- Claim C3: for every user text containing some keyword-table keyword
case-insensitively, the resolver returns that keyword's configured
(stripped) reply, and the first matching row in source order — header
row excluded, which is the `drop 1` of `get_sheet_data` — wins. -/
theorem claim_C3 (env : Env) (raw : List (List String)) (t : String) (row : List String)
    (hsheet : env.sheet = Except.ok raw)
    (hfind : (raw.drop 1).find? (rowMatches (pyLower t)) = some row) :
    find_reply_from_sheet env t = some (rowReply row) := by
  rw [List.drop_one] at hfind
  simp [find_reply_from_sheet, get_sheet_data, hsheet, findLoop_eq_find, hfind]

/-- Claim C4: a user text containing any greeting keyword as a
substring, regardless of case or surrounding text, takes the greeting
branch (the personalized welcome), whatever the keyword table holds:
the conclusion does not depend on `env.sheet`. -/
theorem claim_C4 (env : Env) (sid t kw : String)
    (hkw : kw ∈ GREETING_KEYWORDS) (hsub : strContains (pyLower t) kw = true) :
    (process_event env ⟨some sid, some ⟨false, none, some t⟩⟩).1
      = [⟨sid, welcome_text (get_user_name env sid), some QUICK_REPLY_BUTTONS⟩] := by
  have hwf := greeting_keywords_wellformed kw hkw
  have hne : t ≠ "" := text_ne_empty_of_contains t kw hwf.1 hsub
  have hcond := greeting_cond_true t kw hkw hsub
  simp [process_event, hne, hcond, send_welcome, send_message, truthyQR_buttons]

/-- Claim C5: a text matching neither a greeting keyword nor any
keyword-table row — including when the sheet fetch raises, since the
hypothesis on `env.sheet` is vacuous then — gets the static fallback
message. -/
theorem claim_C5 (env : Env) (sid t : String) (hne : t ≠ "")
    (hgreet : ∀ kw ∈ GREETING_KEYWORDS, strContains (pyLower t) kw = false)
    (hsheet : ∀ raw, env.sheet = Except.ok raw →
        ∀ row ∈ raw.drop 1, rowMatches (pyLower t) row = false) :
    (process_event env ⟨some sid, some ⟨false, none, some t⟩⟩).1
      = [⟨sid, FALLBACK_MESSAGE, some QUICK_REPLY_BUTTONS⟩] := by
  have hcond := greeting_cond_false t hgreet
  have hnone := find_reply_none env t hsheet
  simp [process_event, hne, hcond, hnone, send_message, truthyQR_buttons]

/-- Claim C6: an echo-flagged event never produces an outgoing Send API
call — it is skipped before any reply is produced. -/
theorem claim_C6 (env : Env) (event : MessagingEvent) (msg : Msg)
    (hmsg : event.message = some msg) (hecho : msg.is_echo = true) :
    (process_event env event).1 = [] := by
  obtain ⟨sender, message⟩ := event
  cases sender <;> simp_all [process_event]

/-- Claim C7: a quick-reply tap with an unknown payload code yields
exactly one outgoing message carrying the fallback text, a known code
yields its configured reply, both with the standard button set attached,
and (absent a network fault on the send) processing of the event
completes without error. -/
theorem claim_C7 (env : Env) (sid p : String) (txt : Option String)
    (hfault : env.sendFault = false) :
    (PAYLOAD_REPLIES.lookup p = none →
        (process_event env ⟨some sid, some ⟨false, some p, txt⟩⟩).1
          = [⟨sid, FALLBACK_MESSAGE, some QUICK_REPLY_BUTTONS⟩]) ∧
    (∀ r, PAYLOAD_REPLIES.lookup p = some r →
        (process_event env ⟨some sid, some ⟨false, some p, txt⟩⟩).1
          = [⟨sid, r, some QUICK_REPLY_BUTTONS⟩]) ∧
    (process_event env ⟨some sid, some ⟨false, some p, txt⟩⟩).2 = Except.ok () := by
  refine ⟨fun hnone => ?_, fun r hr => ?_, ?_⟩ <;>
    simp [process_event, send_message, liftSendErr, truthyQR_buttons, *]

/-- Claim C2 (amended): a non-success response from the Send API is
logged and swallowed — absent a network fault, `send_message` returns
normally whatever `sendStatus` is.  (The network-fault half of the
original claim is refuted separately.) -/
theorem claim_C2_amended (env : Env) (recipient_id message_text : String)
    (quick_replies : Option (List Button)) (hfault : env.sendFault = false) :
    (send_message env recipient_id message_text quick_replies).2 = Except.ok () := by
  simp [send_message, hfault]

/-- A non-success Send API response (here a 500) is swallowed:
`send_message` still returns normally. -/
theorem claim_C2_witness :
    (send_message ⟨Except.ok [], false, 200, none, false, 500⟩ "u1" "hello" none).2
      = Except.ok () :=
  claim_C2_amended ⟨Except.ok [], false, 200, none, false, 500⟩ "u1" "hello" none rfl

/-- An environment whose Send API POST raises (a network fault). -/
def faultEnv : Env := ⟨Except.ok [], false, 200, none, true, 200⟩

/-- Claim C2 is false as stated: a network fault during the outbound
POST is not swallowed — `send_message` has no `try`, so the exception
propagates through the dispatch path and aborts `handle_message`. -/
theorem claim_C2_counterexample :
    (handle_message faultEnv
        ⟨some "page", [⟨[⟨some "u1", some ⟨false, none, some "xyz"⟩⟩]⟩]⟩).2
      = Except.error PyErr.connError := rfl

/-- An environment whose Graph API profile lookup succeeds (HTTP 200)
but whose JSON carries an empty `first_name`. -/
def emptyNameEnv : Env := ⟨Except.ok [], false, 200, some "", false, 200⟩

/-- Claim C8 is false as stated: the display-name resolution is not
guaranteed to return a non-empty string — a 200 profile response whose
`first_name` field is the empty string is returned verbatim by
`json.get("first_name", "there")`. -/
theorem claim_C8_counterexample : get_user_name emptyNameEnv "4242" = "" := rfl

/-- Claim C8 (amended): the display-name resolution never raises (it is
total), and every failure — network fault, non-200 status, or missing
`first_name` field — resolves to the literal fallback `"there"`, so the
greeting reply still succeeds and contains `"there"`.  (Only the
non-emptiness of the success case fails, refuted separately.) -/
theorem claim_C8_amended (env : Env) (sender_id : String)
    (hfail : env.nameFault = true ∨ env.nameStatus ≠ 200 ∨ env.nameFirstName = none) :
    get_user_name env sender_id = "there" ∧
    (send_welcome env sender_id).1
      = [⟨sender_id, welcome_text "there", some QUICK_REPLY_BUTTONS⟩] ∧
    strContains (welcome_text "there") "there" = true := by
  have hname : get_user_name env sender_id = "there" := by
    unfold get_user_name
    rcases hfail with h | h | h <;>
      cases hf : env.nameFault <;>
        by_cases hs : env.nameStatus = 200 <;>
          simp_all [beq_iff_eq]
  refine ⟨hname, ?_, by decide⟩
  simp [send_welcome, hname, send_message, truthyQR_buttons]

theorem liftSendErr_if (b : Bool) :
    liftSendErr (if b then Except.error () else Except.ok ())
      = if b then Except.error PyErr.connError else Except.ok () := by
  cases b <;> rfl

/-- A non-echo text event with non-empty text always results in exactly
one outgoing send — the welcome, the sheet reply, or the fallback —
always with the standard button set attached. -/
theorem process_event_text (env : Env) (sid t : String) (hne : t ≠ "") :
    ∃ m, process_event env ⟨some sid, some ⟨false, none, some t⟩⟩
      = ([⟨sid, m, some QUICK_REPLY_BUTTONS⟩],
          if env.sendFault then Except.error PyErr.connError else Except.ok ()) := by
  by_cases hg : (GREETING_KEYWORDS.any fun keyword => strContains (pyStrip (pyLower t)) keyword) = true
  · exact ⟨welcome_text (get_user_name env sid),
      by simp [process_event, hne, hg, send_welcome, send_message, truthyQR_buttons,
               liftSendErr_if]⟩
  · cases hf : find_reply_from_sheet env t with
    | none =>
      exact ⟨FALLBACK_MESSAGE,
        by simp [process_event, hne, hg, hf, send_message, truthyQR_buttons, liftSendErr_if]⟩
    | some r =>
      by_cases hr : r = ""
      · exact ⟨FALLBACK_MESSAGE,
          by simp [process_event, hne, hg, hf, hr, send_message, truthyQR_buttons,
                   liftSendErr_if]⟩
      · exact ⟨r,
          by simp [process_event, hne, hg, hf, hr, send_message, truthyQR_buttons,
                   liftSendErr_if]⟩

/-- When every event carries a sender id and the Send API does not
fault, processing one event never raises. -/
theorem process_event_ok (env : Env) (event : MessagingEvent)
    (hs : event.sender.isSome = true) (hfault : env.sendFault = false) :
    (process_event env event).2 = Except.ok () := by
  obtain ⟨sender, message⟩ := event
  cases sender with
  | none => simp at hs
  | some sid =>
    cases message with
    | none => simp [process_event]
    | some msg =>
      obtain ⟨echo, qr, txt⟩ := msg
      cases echo with
      | true => simp [process_event]
      | false =>
        cases qr with
        | some p => simp [process_event, send_message, hfault, liftSendErr]
        | none =>
          cases txt with
          | none => simp [process_event]
          | some t =>
            by_cases hne : t = ""
            · simp [process_event, hne]
            · obtain ⟨m, hm⟩ := process_event_text env sid t hne
              simp [hm, hfault]

theorem run_events_ok (env : Env) (events : List MessagingEvent)
    (hs : ∀ e ∈ events, e.sender.isSome = true) (hfault : env.sendFault = false) :
    (run_events env events).2 = Except.ok () := by
  induction events with
  | nil => rfl
  | cons e rest ih =>
    have h1 := process_event_ok env e (hs e (List.mem_cons_self e rest)) hfault
    rcases hpe : process_event env e with ⟨s, r⟩
    rw [hpe] at h1
    simp only at h1
    subst h1
    have h2 := ih (fun x hx => hs x (List.mem_cons_of_mem e hx))
    rcases hre : run_events env rest with ⟨s2, r2⟩
    rw [hre] at h2
    simp only at h2
    subst h2
    simp [run_events, hpe, hre]

theorem run_entries_ok (env : Env) (entries : List Entry)
    (hs : ∀ e ∈ entries, ∀ evt ∈ e.messaging, evt.sender.isSome = true)
    (hfault : env.sendFault = false) :
    (run_entries env entries).2 = Except.ok () := by
  induction entries with
  | nil => rfl
  | cons e rest ih =>
    have h1 := run_events_ok env e.messaging (hs e (List.mem_cons_self e rest)) hfault
    rcases hpe : run_events env e.messaging with ⟨s, r⟩
    rw [hpe] at h1
    simp only at h1
    subst h1
    have h2 := ih (fun x hx => hs x (List.mem_cons_of_mem e hx))
    rcases hre : run_entries env rest with ⟨s2, r2⟩
    rw [hre] at h2
    simp only at h2
    subst h2
    simp [run_entries, hpe, hre]

/-- Claim C1 (amended): for a `"page"` payload, provided every sub-event
carries a `sender.id` and no outbound POST raises, processing completes
and the handler returns the 200 success acknowledgment.  (The original
claim — success for every payload including non-`"page"` ones — is
refuted separately: those get a 404.) -/
theorem claim_C1_amended (env : Env) (data : Payload)
    (hobj : data.object = some "page")
    (hsender : ∀ e ∈ data.entry, ∀ evt ∈ e.messaging, evt.sender.isSome = true)
    (hfault : env.sendFault = false) :
    (handle_message env data).2 = Except.ok HttpResult.okAck := by
  have h := run_entries_ok env data.entry hsender hfault
  rcases hre : run_entries env data.entry with ⟨s, r⟩
  rw [hre] at h
  simp only at h
  subst h
  simp [handle_message, hobj, hre]

/-- An environment where every external call succeeds. -/
def plainEnv : Env := ⟨Except.ok [], false, 200, none, false, 200⟩

/-- Claim C1 is false as stated: a POSTed payload whose `object`
discriminator is not `"page"` makes the handler return
`("Not a page event", 404)` — a non-success response, not the success
acknowledgment. -/
theorem claim_C1_counterexample :
    (handle_message plainEnv ⟨some "user_event", []⟩).2 = Except.ok HttpResult.notPage
      ∧ HttpResult.notPage.status = 404 := ⟨rfl, rfl⟩

/-- Python truthiness of the dispatcher's per-event guards: the event
qualifies when it has a message body, is not an echo, and carries a
quick-reply payload or non-empty text. -/
def qualifyingEvt (event : MessagingEvent) : Bool :=
  match event.message with
  | none => false
  | some msg =>
    !msg.is_echo &&
      (msg.quick_reply.isSome ||
        (match msg.text with
         | some t => t != ""
         | none => false))

/-- Claim C9: for every event with a sender id, a qualifying event
(non-echo, with a message carrying a quick-reply payload or non-empty
text) produces exactly one outgoing reply, and a non-qualifying event
produces none. -/
theorem claim_C9 (env : Env) (event : MessagingEvent) (sid : String)
    (hs : event.sender = some sid) :
    (qualifyingEvt event = true → (process_event env event).1.length = 1) ∧
    (qualifyingEvt event = false → (process_event env event).1 = []) := by
  obtain ⟨sender, message⟩ := event
  have hs2 : sender = some sid := hs
  subst hs2
  cases message with
  | none =>
    exact ⟨fun h => by simp [qualifyingEvt] at h, fun _ => by simp [process_event]⟩
  | some msg =>
    obtain ⟨echo, qr, txt⟩ := msg
    cases echo with
    | true =>
      exact ⟨fun h => by simp [qualifyingEvt] at h, fun _ => by simp [process_event]⟩
    | false =>
      cases qr with
      | some p =>
        refine ⟨fun _ => by simp [process_event, send_message], fun h => ?_⟩
        simp [qualifyingEvt] at h
      | none =>
        cases txt with
        | none =>
          exact ⟨fun h => by simp [qualifyingEvt] at h, fun _ => by simp [process_event]⟩
        | some t =>
          by_cases hne : t = ""
          · subst hne
            exact ⟨fun h => by simp [qualifyingEvt] at h, fun _ => by simp [process_event]⟩
          · refine ⟨fun _ => ?_, fun h => ?_⟩
            · obtain ⟨m, hm⟩ := process_event_text env sid t hne
              simp [hm]
            · simp [qualifyingEvt, hne] at h

/-- Claim C10: a text that matches a keyword row whose reply cell strips
to the empty string gets the static fallback message, not an empty
reply: the falsy lookup result is treated as no match. -/
theorem claim_C10 (env : Env) (raw : List (List String)) (sid t : String) (row : List String)
    (hne : t ≠ "")
    (hgreet : ∀ kw ∈ GREETING_KEYWORDS, strContains (pyLower t) kw = false)
    (hsheet : env.sheet = Except.ok raw)
    (hfind : (raw.drop 1).find? (rowMatches (pyLower t)) = some row)
    (hempty : rowReply row = "") :
    (process_event env ⟨some sid, some ⟨false, none, some t⟩⟩).1
      = [⟨sid, FALLBACK_MESSAGE, some QUICK_REPLY_BUTTONS⟩] := by
  have hcond := greeting_cond_false t hgreet
  have hfound : find_reply_from_sheet env t = some "" := by
    rw [List.drop_one] at hfind
    simp [find_reply_from_sheet, get_sheet_data, hsheet, findLoop_eq_find, hfind, hempty]
  simp [process_event, hne, hcond, hfound, send_message, truthyQR_buttons]

/-! ## Witnesses and concrete environments -/

/-- A sheet with a header row and one `price` row, and a profile lookup
answering `"Maria"`. -/
def sheetEnv : Env :=
  ⟨Except.ok [["Keyword", "Reply"], ["price", "Our pricing starts at $99/month"]],
   false, 200, some "Maria", false, 200⟩

/-- An environment whose sheet fetch raises. -/
def errSheetEnv : Env := ⟨Except.error (), false, 200, none, false, 200⟩

/-- An environment whose profile lookup raises. -/
def nameFaultEnv : Env := ⟨Except.ok [], true, 200, none, false, 200⟩

/-- A sheet whose `price` row has a whitespace-only reply cell. -/
def emptyReplyEnv : Env :=
  ⟨Except.ok [["Keyword", "Reply"], ["price", "   "]], false, 200, none, false, 200⟩

/-- A `"page"` payload with one quick-reply tap is acknowledged with the
200 success response. -/
theorem claim_C1_witness :
    (handle_message plainEnv
        ⟨some "page", [⟨[⟨some "u1", some ⟨false, some "PRICE", none⟩⟩]⟩]⟩).2
      = Except.ok HttpResult.okAck :=
  claim_C1_amended plainEnv
    ⟨some "page", [⟨[⟨some "u1", some ⟨false, some "PRICE", none⟩⟩]⟩]⟩
    rfl (by decide) rfl

/-- The `price` row's reply is returned for a text containing `PRICE`
case-insensitively. -/
theorem claim_C3_witness :
    find_reply_from_sheet sheetEnv "what is your PRICE today"
      = some "Our pricing starts at $99/month" := by
  rw [claim_C3 sheetEnv [["Keyword", "Reply"], ["price", "Our pricing starts at $99/month"]]
      "what is your PRICE today" ["price", "Our pricing starts at $99/month"] rfl (by decide)]
  decide

/-- `"HELLO there"` takes the greeting branch and yields the welcome
personalized with the resolved name. -/
theorem claim_C4_witness :
    (process_event sheetEnv ⟨some "u1", some ⟨false, none, some "HELLO there"⟩⟩).1
      = [⟨"u1", welcome_text "Maria", some QUICK_REPLY_BUTTONS⟩] := by
  rw [claim_C4 sheetEnv "u1" "HELLO there" "hello" (by decide) (by decide)]
  decide

/-- A text matching nothing, with the sheet raising, gets the fallback
message. -/
theorem claim_C5_witness :
    (process_event errSheetEnv ⟨some "u1", some ⟨false, none, some "asdkj random"⟩⟩).1
      = [⟨"u1", FALLBACK_MESSAGE, some QUICK_REPLY_BUTTONS⟩] :=
  claim_C5 errSheetEnv "u1" "asdkj random" (by decide) (by decide)
    (fun raw h => nomatch h)

/-- An echo-flagged event produces no outgoing send. -/
theorem claim_C6_witness :
    (process_event plainEnv ⟨some "u1", some ⟨true, none, some "hello"⟩⟩).1 = [] :=
  claim_C6 plainEnv ⟨some "u1", some ⟨true, none, some "hello"⟩⟩
    ⟨true, none, some "hello"⟩ rfl rfl

/-- A quick-reply tap with the unknown payload code `"BOGUS"` yields the
fallback message with the button set attached. -/
theorem claim_C7_witness :
    (process_event plainEnv ⟨some "u1", some ⟨false, some "BOGUS", none⟩⟩).1
      = [⟨"u1", FALLBACK_MESSAGE, some QUICK_REPLY_BUTTONS⟩] :=
  (claim_C7 plainEnv "u1" "BOGUS" none rfl).1 rfl

/-- When the profile lookup raises, the name resolves to `"there"` and
the welcome still goes out containing `"there"`. -/
theorem claim_C8_witness :
    get_user_name nameFaultEnv "u1" = "there" ∧
    (send_welcome nameFaultEnv "u1").1
      = [⟨"u1", welcome_text "there", some QUICK_REPLY_BUTTONS⟩] ∧
    strContains (welcome_text "there") "there" = true :=
  claim_C8_amended nameFaultEnv "u1" (Or.inl rfl)

/-- A qualifying quick-reply tap produces exactly one reply. -/
theorem claim_C9_witness :
    (process_event plainEnv ⟨some "u1", some ⟨false, some "PRICE", none⟩⟩).1.length = 1 :=
  (claim_C9 plainEnv ⟨some "u1", some ⟨false, some "PRICE", none⟩⟩ "u1" rfl).1 rfl

/-- A matched row whose reply cell is whitespace-only yields the
fallback message. -/
theorem claim_C10_witness :
    (process_event emptyReplyEnv ⟨some "u1", some ⟨false, none, some "price query"⟩⟩).1
      = [⟨"u1", FALLBACK_MESSAGE, some QUICK_REPLY_BUTTONS⟩] :=
  claim_C10 emptyReplyEnv [["Keyword", "Reply"], ["price", "   "]] "u1" "price query"
    ["price", "   "] (by decide) (by decide) rfl (by decide) (by decide)

end MessengerBot
